import Mathlib

/-!
Verification development for the dbman generic table access layer
(`src/lib/db.ts`), its HTTP data routes
(`src/app/api/db/[dbName]/[tableName]/data/route.ts` and `…/data/[rowId]/route.ts`)
and the server action layer (`getTableInfoAndDataAction`).

The stateful TypeScript code is embedded as pure functions over an explicit
database model.  A SQLite database file is a list of tables; each table carries
its raw `PRAGMA table_info` metadata (the `pk` field is the engine's 1-based
ordinal of the column within the primary key, 0 when the column is not part of
it) and its rows.  A thrown JavaScript exception is `Except.error`; a caught
one that the source converts into a `{success:false, error}` object is an
`Except.ok` carrying that structured result.  Each operation also returns the
list of SQL statements it actually executed (a statement whose `prepare` fails
is never executed).  JavaScript `NaN` from `parseInt` is modelled as `0`,
which is sound for this code because both are falsy and only feed truthiness
tests.  SQLite type-affinity coercions and LIKE case folding are not modelled;
no theorem below depends on them.
-/

namespace DbMan

/-- SQLite scalar values as they appear in rows and bind parameters. -/
inductive Value where
  | null
  | int (i : Int)
  | text (s : String)
  deriving DecidableEq

/-- One raw row of `PRAGMA table_info` output.  `pk` is the 1-based ordinal of
the column within the primary key (0 when not part of it); `notnull` is the
engine's 0/1 flag. -/
structure PragmaCol where
  name : String
  type : String
  notnull : Nat
  pk : Nat
  deriving DecidableEq

/-- A row: mapping from column name to value, in column order. -/
abbrev Row := List (String × Value)

/-- A table: its name, raw column metadata, and current rows. -/
structure Table where
  name : String
  cols : List PragmaCol
  rows : List Row
  deriving DecidableEq

/-- A single-file database. -/
structure DbFile where
  tables : List Table
  deriving DecidableEq

/-- Engine/library errors thrown as JavaScript exceptions. -/
inductive DbError where
  | fileNotFound
  | noSuchTable (t : String)
  | noSuchColumn (c : String)
  | sqlSyntax (m : String)
  deriving DecidableEq

/-- The human-readable `error.message` of a thrown error (the
`Database file not found at …` path suffix is dropped from the model). -/
def DbError.message : DbError → String
  | .fileNotFound => "Database file not found"
  | .noSuchTable t => "no such table: " ++ t
  | .noSuchColumn c => "no such column: " ++ c
  | .sqlSyntax m => m

/-- Kernel-reducible stand-ins for the string primitives the source uses
(`startsWith`, `endsWith`, `toUpperCase`, `toLowerCase`, `parseInt`,
lexicographic ordering, sorting): semantically the same on the ASCII data
this system handles, but defined by structural recursion so that concrete
runs evaluate inside proofs. -/
def strStartsWith (s pre : String) : Bool :=
  pre.toList.isPrefixOf s.toList

/-- `String.endsWith`. -/
def strEndsWith (s suf : String) : Bool :=
  suf.toList.reverse.isPrefixOf s.toList.reverse

/-- Lexicographic `≤` on char lists. -/
def charListLe : List Char → List Char → Bool
  | [], _ => true
  | _ :: _, [] => false
  | a :: as, b :: bs => if a == b then charListLe as bs else decide (a < b)

/-- Lexicographic `≤` on strings. -/
def strLe (a b : String) : Bool :=
  charListLe a.toList b.toList

/-- ASCII lower-casing of one character. -/
def charLower (c : Char) : Char :=
  if c.isUpper then Char.ofNat (c.toNat + 32) else c

/-- ASCII `toLowerCase`. -/
def strLower (s : String) : String :=
  String.mk (s.toList.map charLower)

/-- ASCII upper-casing of one character. -/
def charUpper (c : Char) : Char :=
  if c.isLower then Char.ofNat (c.toNat - 32) else c

/-- ASCII `toUpperCase`. -/
def strUpper (s : String) : String :=
  String.mk (s.toList.map charUpper)

/-- `parseInt(s, 10)` restricted to decimal digit strings; any other input
(JavaScript `NaN`) is modelled as `none`, read as `0` downstream, which has
the same falsiness. -/
def parseNat? (s : String) : Option Nat :=
  if s.toList ≠ [] ∧ s.toList.all (fun c => c.isDigit) then
    some (s.toList.foldl (fun acc c => acc * 10 + (c.toNat - 48)) 0)
  else none

/-- Insert into a list sorted by `le`. -/
def insertLe {α : Type} (le : α → α → Bool) (x : α) : List α → List α
  | [] => [x]
  | y :: ys => if le x y then x :: y :: ys else y :: insertLe le x ys

/-- Insertion sort by a boolean `le` (the model of the engine's ORDER BY). -/
def sortLe {α : Type} (le : α → α → Bool) : List α → List α
  | [] => []
  | x :: xs => insertLe le x (sortLe le xs)

/-- An executed SQL statement: the SQL text and its bound parameters. -/
structure Stmt where
  sql : String
  params : List Value
  deriving DecidableEq

/-- `connectToDb` (src/lib/db.ts): throws when the file does not exist,
otherwise returns the handle (the WAL pragma has no observable effect here). -/
def connectToDb : Option DbFile → Except DbError DbFile
  | none => .error .fileNotFound
  | some db => .ok db

/-- Table lookup by name. -/
def findTable (db : DbFile) (tableName : String) : Option Table :=
  db.tables.find? (fun t => t.name == tableName)

/-- Whether a column name exists in a table's metadata. -/
def colExists (t : Table) (c : String) : Bool :=
  t.cols.any (fun col => col.name == c)

/-- `listTables` (src/lib/db.ts): names of non-internal tables, ordered by
name.  The connect happens before any try/catch, so a missing file throws. -/
def listTables (db? : Option DbFile) : Except DbError (List String) :=
  match connectToDb db? with
  | .error e => .error e
  | .ok db =>
    .ok (sortLe strLe ((db.tables.map (fun t => t.name)).filter
      (fun n => !(strStartsWith n "sqlite_"))))

/-- The `TableSchema` interface of src/lib/db.ts. -/
structure TableSchema where
  name : String
  type : String
  pk : Bool
  notnull : Bool
  deriving DecidableEq

/-- The row-mapping step of `getTableSchema`: a column is flagged `pk`
exactly when its PRAGMA ordinal equals 1 (`row.pk === 1`). -/
def schemaOfCols (cols : List PragmaCol) : List TableSchema :=
  cols.map (fun r => { name := r.name, type := r.type, pk := r.pk == 1, notnull := r.notnull == 1 })

/-- `getTableSchema` (src/lib/db.ts).  `PRAGMA table_info` of a missing table
yields no rows, so the result is `[]` rather than an error. -/
def getTableSchema (db? : Option DbFile) (tableName : String) :
    Except DbError (List TableSchema) :=
  match connectToDb db? with
  | .error e => .error e
  | .ok db =>
    match findTable db tableName with
    | none => .ok []
    | some t => .ok (schemaOfCols t.cols)

/-- `getPrimaryKeyColumn` (src/lib/db.ts): the single schema column whose
`pk` flag is set, else `null`. -/
def getPrimaryKeyColumn (db? : Option DbFile) (tableName : String) :
    Except DbError (Option String) :=
  match getTableSchema db? tableName with
  | .error e => .error e
  | .ok schema =>
    let pkColumns := schema.filter (fun col => col.pk)
    if pkColumns.length == 1 then .ok (pkColumns.head?.map (fun c => c.name))
    else .ok none

/-- The filter-value test `value === null || value === 'NULL'`. -/
def isNullish (v : Value) : Bool :=
  v == .null || v == .text "NULL"

/-- The filter-value test
`typeof value === 'string' && (value.startsWith('%') || value.endsWith('%'))`. -/
def isLikeValue (v : Value) : Bool :=
  match v with
  | .text s => strStartsWith s "%" || strEndsWith s "%"
  | _ => false

/-- One WHERE clause of `fetchTableData`, as built per filter entry. -/
def filterClause (kv : String × Value) : String :=
  if isNullish kv.2 then kv.1 ++ " IS NULL"
  else if isLikeValue kv.2 then kv.1 ++ " LIKE ?"
  else kv.1 ++ " = ?"

/-- The WHERE suffix appended to both the data and count queries. -/
def fetchWhereSql (filters : List (String × Value)) : String :=
  if filters.isEmpty then ""
  else " WHERE " ++ String.intercalate " AND " (filters.map filterClause)

/-- The bound parameters pushed for the filter clauses: every value that is
not nullish, in iteration order. -/
def fetchParams (filters : List (String × Value)) : List Value :=
  (filters.filter (fun kv => !(isNullish kv.2))).map (fun kv => kv.2)

/-- Row lookup by column name. -/
def rowLookup (r : Row) (c : String) : Option Value :=
  (r.find? (fun kv => kv.1 == c)).map (fun kv => kv.2)

/-- SQL `=` comparison: NULL never compares equal. -/
def sqlEq (a b : Value) : Bool :=
  match a, b with
  | .null, _ => false
  | _, .null => false
  | a, b => a == b

/-- SQL LIKE matching restricted to the `%` and `_` wildcards
(ASCII case folding is not modelled). -/
def likeMatchAux : List Char → List Char → Bool
  | [], [] => true
  | [], _ :: _ => false
  | '%' :: ps, [] => likeMatchAux ps []
  | '%' :: ps, t :: ts => likeMatchAux ps (t :: ts) || likeMatchAux ('%' :: ps) ts
  | _ :: _, [] => false
  | p :: ps, t :: ts => (p == t || p == '_') && likeMatchAux ps ts
termination_by pat txt => (pat.length, txt.length)

/-- String-level LIKE. -/
def likeMatch (pattern s : String) : Bool :=
  likeMatchAux pattern.toList s.toList

/-- Whether a row satisfies one filter entry under the clause that
`fetchTableData` emits for it. -/
def clauseHolds (r : Row) (kv : String × Value) : Bool :=
  if isNullish kv.2 then rowLookup r kv.1 == some .null
  else if isLikeValue kv.2 then
    match kv.2, rowLookup r kv.1 with
    | .text pat, some (.text s) => likeMatch pat s
    | _, _ => false
  else
    match rowLookup r kv.1 with
    | some v => sqlEq v kv.2
    | none => false

/-- The rows of a table matching every filter clause (joined with AND). -/
def matchingRows (tbl : Table) (filters : List (String × Value)) : List Row :=
  tbl.rows.filter (fun r => filters.all (clauseHolds r))

/-- JavaScript truthiness of an optional number (0 and absent are falsy). -/
def truthy : Option Nat → Bool
  | some n => n != 0
  | none => false

/-- The `sanitizeName` helper of the data routes, and the `safeSortBy`
computation of `fetchTableData`: strip every character outside
`[A-Za-z0-9_]`. -/
def sanitizeName (s : String) : String :=
  String.mk (s.toList.filter (fun c => c.isAlphanum || c == '_'))

/-- Row ordering for ORDER BY: NULLs first, then integers, then texts. -/
def valueLe (a b : Value) : Bool :=
  match a, b with
  | .null, _ => true
  | _, .null => false
  | .int x, .int y => decide (x ≤ y)
  | .int _, .text _ => true
  | .text _, .int _ => false
  | .text x, .text y => strLe x y

/-- Sort rows by the value of one column. -/
def sortRowsBy (c : String) (desc : Bool) (rows : List Row) : List Row :=
  sortLe (fun a b =>
    let va := (rowLookup a c).getD .null
    let vb := (rowLookup b c).getD .null
    if desc then valueLe vb va else valueLe va vb) rows

/-- The options object of `fetchTableData`. -/
structure FetchOptions where
  page : Option Nat := none
  limit : Option Nat := none
  sortBy : Option String := none
  sortOrder : Option String := none
  filters : List (String × Value) := []

/-- The result of `fetchTableData`. -/
structure FetchResult where
  data : List Row
  totalRows : Nat
  deriving DecidableEq

/-- The ORDER BY target of `fetchTableData`, when one survives sanitization:
the sanitized column name and whether the direction resolved to DESC. -/
def fetchSortSpec (opts : FetchOptions) : Option (String × Bool) :=
  match opts.sortBy with
  | none => none
  | some sb =>
    let desc :=
      match opts.sortOrder with
      | some o => strUpper o == "DESC"
      | none => false
    let safeSortBy := sanitizeName sb
    if safeSortBy ≠ "" then some (safeSortBy, desc) else none

/-- The page of rows the data query returns. -/
def pagedRows (tbl : Table) (opts : FetchOptions) : List Row :=
  let m := matchingRows tbl opts.filters
  let sorted :=
    match fetchSortSpec opts with
    | some (c, desc) => sortRowsBy c desc m
    | none => m
  if truthy opts.limit && truthy opts.page then
    (sorted.drop ((opts.page.getD 0 - 1) * opts.limit.getD 0)).take (opts.limit.getD 0)
  else if truthy opts.limit then sorted.take (opts.limit.getD 0)
  else sorted

/-- `fetchTableData` (src/lib/db.ts).  Builds the count and data SQL from the
same `filterClauses`, executes the count first, then appends ORDER BY (after
stripping unsafe characters from `sortBy`, with no schema check) and
LIMIT/OFFSET, and executes the data query.  There is no catch: any engine
error (missing file, missing table, unknown column) propagates. -/
def fetchTableData (db? : Option DbFile) (tableName : String) (opts : FetchOptions) :
    List Stmt × Except DbError FetchResult :=
  match connectToDb db? with
  | .error e => ([], .error e)
  | .ok db =>
    let whereStr := fetchWhereSql opts.filters
    let params := fetchParams opts.filters
    let countQuery := "SELECT COUNT(*) as count FROM " ++ tableName ++ whereStr
    match findTable db tableName with
    | none => ([], .error (.noSuchTable tableName))
    | some tbl =>
      match (opts.filters.map (fun kv => kv.1)).find? (fun c => !(colExists tbl c)) with
      | some c => ([], .error (.noSuchColumn c))
      | none =>
        let totalRows := (matchingRows tbl opts.filters).length
        let countStmt : Stmt := ⟨countQuery, params⟩
        let orderStr :=
          match fetchSortSpec opts with
          | some (c, desc) => " ORDER BY " ++ c ++ " " ++ (if desc then "DESC" else "ASC")
          | none => ""
        let limitPieces : String × List Value :=
          if truthy opts.limit && truthy opts.page then
            (" LIMIT ? OFFSET ?",
              [Value.int (Int.ofNat (opts.limit.getD 0)),
               Value.int (Int.ofNat ((opts.page.getD 0 - 1) * opts.limit.getD 0))])
          else if truthy opts.limit then
            (" LIMIT ?", [Value.int (Int.ofNat (opts.limit.getD 0))])
          else ("", [])
        let query := "SELECT * FROM " ++ tableName ++ whereStr ++ orderStr ++ limitPieces.1
        let dataStmt : Stmt := ⟨query, params ++ limitPieces.2⟩
        match fetchSortSpec opts with
        | some (c, _) =>
          if colExists tbl c then
            ([countStmt, dataStmt], .ok ⟨pagedRows tbl opts, totalRows⟩)
          else ([countStmt], .error (.noSuchColumn c))
        | none => ([countStmt, dataStmt], .ok ⟨pagedRows tbl opts, totalRows⟩)

/-- The structured result of `insertRow`. -/
structure InsertResult where
  success : Bool
  id : Option Nat := none
  error : Option String := none
  deriving DecidableEq

/-- The INSERT SQL text built by `insertRow`. -/
def insertSql (tableName : String) (keys : List String) : String :=
  "INSERT INTO " ++ tableName ++ " (" ++ String.intercalate ", " keys ++ ") VALUES (" ++
    String.intercalate ", " (keys.map (fun _ => "?")) ++ ")"

/-- `insertRow` (src/lib/db.ts).  The connect happens before the try, so a
missing file throws; statement errors are caught and returned as
`{success:false, error}`.  An empty payload builds `INSERT INTO t () VALUES ()`,
which fails at prepare with a syntax error (no statement executed).  The
engine-assigned rowid is modelled as one past the current row count; engine
constraint checks (UNIQUE, NOT NULL) are not modelled. -/
def insertRow (db? : Option DbFile) (tableName : String) (data : List (String × Value)) :
    List Stmt × Except DbError (InsertResult × DbFile) :=
  match connectToDb db? with
  | .error e => ([], .error e)
  | .ok db =>
    let keys := data.map (fun kv => kv.1)
    let values := data.map (fun kv => kv.2)
    if keys.isEmpty then
      ([], .ok ({ success := false,
                  error := some (DbError.sqlSyntax "near \")\": syntax error").message }, db))
    else
      match findTable db tableName with
      | none => ([], .ok ({ success := false,
                            error := some (DbError.noSuchTable tableName).message }, db))
      | some tbl =>
        match keys.find? (fun c => !(colExists tbl c)) with
        | some c => ([], .ok ({ success := false,
                                error := some (DbError.noSuchColumn c).message }, db))
        | none =>
          let newRow : Row := tbl.cols.map (fun c =>
            (c.name, ((data.find? (fun kv => kv.1 == c.name)).map (fun kv => kv.2)).getD .null))
          let db' : DbFile := ⟨db.tables.map (fun x =>
            if x.name == tableName then { x with rows := x.rows ++ [newRow] } else x)⟩
          ([⟨insertSql tableName keys, values⟩],
            .ok ({ success := true, id := some (tbl.rows.length + 1) }, db'))

/-- The structured result of `updateRow` and `deleteRow`. -/
structure ChangeResult where
  success : Bool
  changes : Option Nat := none
  error : Option String := none
  deriving DecidableEq

/-- The UPDATE SQL text built by `updateRow`: SET clauses from the data keys,
WHERE on the id column. -/
def updateSql (tableName : String) (keys : List String) (idColumn : String) : String :=
  "UPDATE " ++ tableName ++ " SET " ++
    String.intercalate ", " (keys.map (fun k => k ++ " = ?")) ++
    " WHERE " ++ idColumn ++ " = ?"

/-- Whether a row is selected by `WHERE idColumn = ?` bound to `rowId`. -/
def whereMatches (r : Row) (idColumn : String) (rowId : Value) : Bool :=
  match rowLookup r idColumn with
  | some v => sqlEq v rowId
  | none => false

/-- Overwrite the columns named in `data` with their new values. -/
def applySet (data : List (String × Value)) (r : Row) : Row :=
  r.map (fun kv =>
    match data.find? (fun kv' => kv'.1 == kv.1) with
    | some kv' => (kv.1, kv'.2)
    | none => kv)

/-- `updateRow` (src/lib/db.ts).  Connect before the try (missing file
throws); statement errors caught and returned structured.  An empty data
object yields `UPDATE t SET  WHERE id = ?`, a prepare-time syntax error.
`info.changes` is the number of rows selected by the WHERE clause. -/
def updateRow (db? : Option DbFile) (tableName : String) (rowId : Value)
    (idColumn : String) (data : List (String × Value)) :
    List Stmt × Except DbError (ChangeResult × DbFile) :=
  match connectToDb db? with
  | .error e => ([], .error e)
  | .ok db =>
    let keys := data.map (fun kv => kv.1)
    if keys.isEmpty then
      ([], .ok ({ success := false,
                  error := some (DbError.sqlSyntax "near \"WHERE\": syntax error").message }, db))
    else
      match findTable db tableName with
      | none => ([], .ok ({ success := false,
                            error := some (DbError.noSuchTable tableName).message }, db))
      | some tbl =>
        match (keys ++ [idColumn]).find? (fun c => !(colExists tbl c)) with
        | some c => ([], .ok ({ success := false,
                                error := some (DbError.noSuchColumn c).message }, db))
        | none =>
          let changes := (tbl.rows.filter (fun r => whereMatches r idColumn rowId)).length
          let db' : DbFile := ⟨db.tables.map (fun x =>
            if x.name == tableName then
              { x with rows := x.rows.map (fun r =>
                  if whereMatches r idColumn rowId then applySet data r else r) }
            else x)⟩
          ([⟨updateSql tableName keys idColumn, data.map (fun kv => kv.2) ++ [rowId]⟩],
            .ok ({ success := true, changes := some changes }, db'))

/-- `deleteRow` (src/lib/db.ts).  Same shape as `updateRow`; deletes the rows
selected by the WHERE clause. -/
def deleteRow (db? : Option DbFile) (tableName : String) (rowId : Value)
    (idColumn : String) : List Stmt × Except DbError (ChangeResult × DbFile) :=
  match connectToDb db? with
  | .error e => ([], .error e)
  | .ok db =>
    match findTable db tableName with
    | none => ([], .ok ({ success := false,
                          error := some (DbError.noSuchTable tableName).message }, db))
    | some tbl =>
      if !(colExists tbl idColumn) then
        ([], .ok ({ success := false,
                    error := some (DbError.noSuchColumn idColumn).message }, db))
      else
        let changes := (tbl.rows.filter (fun r => whereMatches r idColumn rowId)).length
        let db' : DbFile := ⟨db.tables.map (fun x =>
          if x.name == tableName then
            { x with rows := x.rows.filter (fun r => !(whereMatches r idColumn rowId)) }
          else x)⟩
        ([⟨"DELETE FROM " ++ tableName ++ " WHERE " ++ idColumn ++ " = ?", [rowId]⟩],
          .ok ({ success := true, changes := some changes }, db'))

/-- `path.basename(raw) !== raw` holds exactly when the name contains a
path separator. -/
def hasSlash (s : String) : Bool :=
  s.toList.any (fun c => c == '/')

/-- Whether `pat` occurs as a contiguous run inside `s`. -/
def listContains (pat s : List Char) : Bool :=
  match s with
  | [] => pat.isEmpty
  | _ :: rest => pat.isPrefixOf s || listContains pat rest

/-- Substring containment, modelling JavaScript `String.prototype.includes`. -/
def containsSub (s pat : String) : Bool :=
  listContains pat.toList s.toList

/-- JavaScript object assignment `obj[k] = v` on an insertion-ordered map:
overwrite in place when the key exists, else append. -/
def upsert (l : List (String × Value)) (k : String) (v : Value) : List (String × Value) :=
  if l.any (fun kv => kv.1 == k) then
    l.map (fun kv => if kv.1 == k then (k, v) else kv)
  else l ++ [(k, v)]

/-- `sanitizeRowId` of the `[rowId]` route: strip slash, dot, semicolon,
backtick and single-quote characters (the latter two written via their
code points). -/
def sanitizeRowId (id : String) : String :=
  String.mk (id.toList.filter (fun c =>
    !(c == '/' || c == '.' || c == ';' || c == Char.ofNat 96 || c == Char.ofNat 39)))

/-- `searchParams.get(k) || d`: the default replaces both an absent and an
empty value. -/
def paramOr (ps : List (String × String)) (k d : String) : String :=
  match ps.find? (fun kv => kv.1 == k) with
  | some kv => if kv.2 == "" then d else kv.2
  | none => d

/-- `searchParams.get(k) || undefined`. -/
def paramOpt (ps : List (String × String)) (k : String) : Option String :=
  match ps.find? (fun kv => kv.1 == k) with
  | some kv => if kv.2 == "" then none else some kv.2
  | none => none

/-- `searchParams.get(k)` with no falsiness coalescing (the `sortOrder` cast). -/
def paramRaw (ps : List (String × String)) (k : String) : Option String :=
  (ps.find? (fun kv => kv.1 == k)).map (fun kv => kv.2)

/-- The filter-collection loop of the data route's GET handler: each
`filter_<key>` query parameter contributes an entry under the *sanitized*
key (a changed key is only warned about, never rejected). -/
def collectFilters (ps : List (String × String)) : List (String × Value) :=
  ps.foldl (fun acc kv =>
    if strStartsWith kv.1 "filter_" then
      upsert acc (sanitizeName (kv.1.drop 7)) (Value.text kv.2)
    else acc) []

/-- The return sites of the data route's GET handler. -/
inductive GetDataResponse where
  | invalidDbName
  | invalidTableName
  | dbNotFound
  | tableNotFound
  | fetchFailed (msg : String)
  | ok (data : List Row) (totalRows : Nat) (totalPages : Nat) (currentPage : Nat) (limit : Nat)
  deriving DecidableEq

/-- GET of `src/app/api/db/[dbName]/[tableName]/data/route.ts` (src/unnamed/part_000):
validates the db and table names, collects pagination/sort/filter query
parameters, calls `fetchTableData`, and maps a thrown `no such table` onto a
404. -/
def dataGET (db? : Option DbFile) (rawDbName rawTableName : String)
    (searchParams : List (String × String)) : List Stmt × GetDataResponse :=
  if hasSlash rawDbName then ([], .invalidDbName)
  else
    let tableName := sanitizeName rawTableName
    if tableName ≠ rawTableName then ([], .invalidTableName)
    else
      match db? with
      | none => ([], .dbNotFound)
      | some _ =>
        let page := (parseNat? (paramOr searchParams "page" "1")).getD 0
        let lim := (parseNat? (paramOr searchParams "limit" "10")).getD 0
        let filters := collectFilters searchParams
        match fetchTableData db? tableName
            { page := some page, limit := some lim,
              sortBy := paramOpt searchParams "sortBy",
              sortOrder := paramRaw searchParams "sortOrder",
              filters := filters } with
        | (tr, .ok r) => (tr, .ok r.data r.totalRows ((r.totalRows + lim - 1) / lim) page lim)
        | (tr, .error e) =>
          (tr, if containsSub (strLower e.message) "no such table" then .tableNotFound
               else .fetchFailed e.message)

/-- The return sites of the data route's POST handler. -/
inductive PostDataResponse where
  | invalidDbName
  | invalidTableName
  | dbNotFound
  | invalidJson
  | emptyBody
  | created (id : Option Nat)
  | uniqueConflict (msg : String)
  | notNullViolation (msg : String)
  | tableNotFound
  | insertFailed (msg : String)
  | serverError (msg : String)
  deriving DecidableEq

/-- POST of the data route (src/unnamed/part_000): rejects an empty body with
`Request body cannot be empty.` before any SQL, sanitizes the body keys
(warn-and-continue), then calls `insertRow` and classifies its error text. -/
def dataPOST (db? : Option DbFile) (rawDbName rawTableName : String)
    (body? : Option (List (String × Value))) : List Stmt × PostDataResponse :=
  if hasSlash rawDbName then ([], .invalidDbName)
  else
    let tableName := sanitizeName rawTableName
    if tableName ≠ rawTableName then ([], .invalidTableName)
    else
      match db? with
      | none => ([], .dbNotFound)
      | some _ =>
        match body? with
        | none => ([], .invalidJson)
        | some body =>
          if body.isEmpty then ([], .emptyBody)
          else
            let sanitizedBody := body.foldl (fun acc kv => upsert acc (sanitizeName kv.1) kv.2) []
            match insertRow db? tableName sanitizedBody with
            | (tr, .error e) => (tr, .serverError e.message)
            | (tr, .ok (res, _)) =>
              if res.success then (tr, .created res.id)
              else
                let msg := res.error.getD ""
                if containsSub msg "UNIQUE constraint failed" then (tr, .uniqueConflict msg)
                else if containsSub msg "NOT NULL constraint failed" then (tr, .notNullViolation msg)
                else if containsSub (strLower msg) "no such table" then (tr, .tableNotFound)
                else (tr, .insertFailed msg)

/-- The return sites of the `[rowId]` route's PUT handler. -/
inductive PutResponse where
  | invalidDbName
  | invalidTableName
  | invalidRowId
  | dbNotFound
  | noPrimaryKey
  | invalidJson
  | emptyBody
  | noValidFields
  | rowNotFound
  | updated (changes : Nat)
  | uniqueConflict (msg : String)
  | notNullViolation (msg : String)
  | tableNotFound
  | updateFailed (msg : String)
  | serverError (msg : String)
  deriving DecidableEq

/-- The body-sanitization loop of the PUT handler: each key is sanitized, and
a key equal (after sanitization) to the primary-key column is skipped
(`continue`) so the SET list never contains it. -/
def putSanitizedBody (idColumn : String) (body : List (String × Value)) :
    List (String × Value) :=
  body.foldl (fun acc kv =>
    let sanitizedKey := sanitizeName kv.1
    if sanitizedKey == idColumn then acc else upsert acc sanitizedKey kv.2) []

/-- PUT of `src/app/api/db/[dbName]/[tableName]/data/[rowId]/route.ts`
(update by primary key): validates names and rowId, resolves the primary-key
column (rejecting when there is none), drops the primary-key column from the
body, and calls `updateRow`; zero reported changes become a 404. -/
def dataPUT (db? : Option DbFile) (rawDbName rawTableName rawRowId : String)
    (body? : Option (List (String × Value))) : List Stmt × PutResponse :=
  if hasSlash rawDbName then ([], .invalidDbName)
  else
    let tableName := sanitizeName rawTableName
    if tableName ≠ rawTableName then ([], .invalidTableName)
    else
      let rowId := sanitizeRowId rawRowId
      if rowId ≠ rawRowId && rowId == "" then ([], .invalidRowId)
      else
        match db? with
        | none => ([], .dbNotFound)
        | some _ =>
          match getPrimaryKeyColumn db? tableName with
          | .error e => ([], .serverError e.message)
          | .ok none => ([], .noPrimaryKey)
          | .ok (some idColumn) =>
            match body? with
            | none => ([], .invalidJson)
            | some body =>
              if body.isEmpty then ([], .emptyBody)
              else
                let sanitizedBody := putSanitizedBody idColumn body
                if sanitizedBody.isEmpty then ([], .noValidFields)
                else
                  match updateRow db? tableName (Value.text rowId) idColumn sanitizedBody with
                  | (tr, .error e) => (tr, .serverError e.message)
                  | (tr, .ok (res, _)) =>
                    if res.success then
                      if res.changes.getD 0 == 0 then (tr, .rowNotFound)
                      else (tr, .updated (res.changes.getD 0))
                    else
                      let msg := res.error.getD ""
                      if containsSub msg "UNIQUE constraint failed" then (tr, .uniqueConflict msg)
                      else if containsSub msg "NOT NULL constraint failed" then
                        (tr, .notNullViolation msg)
                      else if containsSub (strLower msg) "no such table" then (tr, .tableNotFound)
                      else (tr, .updateFailed msg)

/-- Double-quote an identifier with internal quotes doubled, as the server
action layer does for table and sort-column names. -/
def quoteIdent (s : String) : String :=
  "\"" ++ String.mk (s.toList.foldr
    (fun c acc => if c == Char.ofNat 34 then c :: c :: acc else c :: acc) []) ++ "\""

/-- The return sites of `getTableInfoAndDataAction`: the action reports all
failures as `{success:false, error}` distinguished only by message. -/
inductive ActionResponse where
  | failure (msg : String)
  | ok (schema : List PragmaCol) (data : List Row) (totalRows : Nat)
      (primaryKeyColumns : List String)
  deriving DecidableEq

/-- `getTableInfoAndDataAction` (src/unnamed/part_005): reads the schema,
rejects a `sortBy` that is not a schema column name *before* building the data
or count query, then runs the data query (quoted table and sort column,
LIMIT/OFFSET bound) and the unfiltered count query.  The handle-based helpers
it imports (`getAllRows`, `getOneRow`, `runQuery`, `closeDb`, handle-based
`connectToDb`) are not under src/; they are modelled as plain statement
execution against the database model, with connect creating an empty database
for a missing file (see the comment in src/app/dashboard/databases/actions.ts).
The `encodedDbPath` traversal check is outside the scope of the claims and is
not modelled. -/
def getTableInfoAndDataAction (db? : Option DbFile) (tableName : String)
    (page pageSize : Nat) (sortBy : Option String) (sortDirection : Option String) :
    List Stmt × ActionResponse :=
  let db := db?.getD ⟨[]⟩
  let notFoundMsg := "Table \"" ++ tableName ++ "\" not found or has no columns."
  match findTable db tableName with
  | none => ([], .failure notFoundMsg)
  | some tbl =>
    if tbl.cols.isEmpty then ([], .failure notFoundMsg)
    else
      let primaryKeyColumns := (tbl.cols.filter (fun c => c.pk > 0)).map (fun c => c.name)
      let orderBy? : Except String String :=
        match sortBy with
        | none => .ok ""
        | some sb =>
          if !(tbl.cols.any (fun c => c.name == sb)) then
            .error ("Invalid sort column: " ++ sb)
          else
            let direction := if sortDirection == some "DESC" then "DESC" else "ASC"
            .ok ("ORDER BY " ++ quoteIdent sb ++ " " ++ direction)
      match orderBy? with
      | .error msg => ([], .failure msg)
      | .ok orderByClause =>
        let offset := (page - 1) * pageSize
        let dataQuery := "SELECT * FROM " ++ quoteIdent tableName ++ " " ++ orderByClause ++
          " LIMIT ? OFFSET ?"
        let sorted :=
          match sortBy with
          | some sb => sortRowsBy sb (sortDirection == some "DESC") tbl.rows
          | none => tbl.rows
        let data := (sorted.drop offset).take pageSize
        let countQuery := "SELECT COUNT(*) as count FROM " ++ quoteIdent tableName
        ([⟨dataQuery, [Value.int (Int.ofNat pageSize), Value.int (Int.ofNat offset)]⟩,
          ⟨countQuery, []⟩],
          .ok tbl.cols data tbl.rows.length primaryKeyColumns)

/-!  Theorems settling the claims. -/

/-- C1 (code bug): on a table declared with a composite primary key, SQLite's
`PRAGMA table_info` reports the key columns with ordinals 1, 2, …; because
`getTableSchema` flags a column as primary key only when the ordinal equals 1,
`getPrimaryKeyColumn` finds exactly one flagged column and returns the *first*
composite-key column instead of the `null` that its own doc comment, its unit
test and the claim require.  Here table `t` has `PRIMARY KEY (a, b)` (PRAGMA
ordinals 1 and 2) and the function returns column `a`. -/
theorem c1_composite_pk_returns_first_column :
    getPrimaryKeyColumn
      (some ⟨[⟨"t", [⟨"a", "INTEGER", 1, 1⟩, ⟨"b", "INTEGER", 1, 2⟩], []⟩]⟩) "t"
      = .ok (some "a") := rfl

/-- C2 (counterexample): a filter key containing a character outside
`[A-Za-z0-9_]` does not fail the GET data operation with an invalid-identifier
error; it is silently sanitized (`a;b` becomes `ab`) and the operation builds
and executes both SQL statements against the sanitized column, returning the
matching row. -/
theorem c2_filter_key_not_rejected :
    (dataGET (some ⟨[⟨"t", [⟨"ab", "TEXT", 0, 0⟩], [[("ab", Value.text "x")]]⟩]⟩)
        "d.db" "t" [("filter_a;b", "x")]).2
      = .ok [[("ab", Value.text "x")]] 1 1 1 10
    ∧ (dataGET (some ⟨[⟨"t", [⟨"ab", "TEXT", 0, 0⟩], [[("ab", Value.text "x")]]⟩]⟩)
        "d.db" "t" [("filter_a;b", "x")]).1.length = 2 := by
  refine ⟨?_, ?_⟩ <;> decide

/-- C3 (counterexample): `fetchTableData` does not validate `sortBy` against
the schema and does not reject before executing SQL: with `sortBy = "zzz"`
(well-formed but absent from the schema) the count statement executes first
and the failure is an engine `no such column` error at the data statement,
not a prior validation error. -/
theorem c3_sort_column_not_validated :
    fetchTableData (some ⟨[⟨"t", [⟨"id", "INTEGER", 0, 1⟩, ⟨"name", "TEXT", 0, 0⟩],
        [[("id", Value.int 1), ("name", Value.text "x")]]⟩]⟩) "t" { sortBy := some "zzz" }
      = ([⟨"SELECT COUNT(*) as count FROM t", []⟩], .error (.noSuchColumn "zzz")) := rfl

/-- C9 (counterexample): `listTables` opens the connection with no surrounding
catch, so when the database file does not exist the `connectToDb` exception
escapes the access layer instead of being returned as a structured
success-flag result. -/
theorem c9_list_tables_throws :
    listTables none = .error .fileNotFound := rfl

/-- Lists that are pairwise never-both-selected have at most one selected
element. -/
theorem pairwise_filter_length_le {α : Type} (p : α → Bool) (l : List α)
    (h : l.Pairwise (fun a b => ¬(p a = true ∧ p b = true))) :
    (l.filter p).length ≤ 1 := by
  induction l with
  | nil => simp
  | cons x xs ih =>
    rcases List.pairwise_cons.mp h with ⟨hx, hxs⟩
    by_cases hp : p x = true
    · have hnil : xs.filter p = [] := by
        refine List.eq_nil_iff_forall_not_mem.mpr (fun a ha => ?_)
        rcases List.mem_filter.mp ha with ⟨hmem, hpa⟩
        exact (hx a hmem) ⟨hp, hpa⟩
      simp [List.filter_cons_of_pos, hp, hnil]
    · simpa [List.filter_cons_of_neg, hp] using ih hxs

/-- C10: `getTableSchema` flags a column as primary key exactly when the
engine's PRAGMA metadata gives it primary-key ordinal 1 (`row.pk === 1`), so —
because the engine assigns the ordinal 1 to at most one column, the stated
hypothesis — every returned schema flags at most one column as primary key,
including for composite keys whose later columns carry ordinals 2, 3, …. -/
theorem c10_pk_flag_iff_ordinal_one (db : DbFile) (tbl : Table) (tableName : String)
    (hfind : findTable db tableName = some tbl)
    (hord : tbl.cols.Pairwise (fun a b => ¬(a.pk = 1 ∧ b.pk = 1))) :
    ∃ s, getTableSchema (some db) tableName = .ok s
      ∧ s.map TableSchema.pk = tbl.cols.map (fun c => c.pk == 1)
      ∧ (s.filter (fun c => c.pk)).length ≤ 1 := by
  refine ⟨schemaOfCols tbl.cols, ?_, ?_, ?_⟩
  · simp [getTableSchema, connectToDb, hfind]
  · simp only [schemaOfCols, List.map_map]
    rfl
  · apply pairwise_filter_length_le
    rw [schemaOfCols]
    refine List.pairwise_map.mpr (hord.imp ?_)
    intro a b hab
    simpa using hab

/-- Witness for C10 on a composite-primary-key table (ordinals 1 and 2): one
column is flagged, the other is not. -/
theorem c10_pk_flag_witness :
    ∃ s, getTableSchema
        (some ⟨[⟨"w", [⟨"a", "INTEGER", 1, 1⟩, ⟨"b", "INTEGER", 1, 2⟩], []⟩]⟩) "w" = .ok s
      ∧ s.map TableSchema.pk
        = [PragmaCol.mk "a" "INTEGER" 1 1, PragmaCol.mk "b" "INTEGER" 1 2].map (fun c => c.pk == 1)
      ∧ (s.filter (fun c => c.pk)).length ≤ 1 :=
  c10_pk_flag_iff_ordinal_one ⟨[⟨"w", [⟨"a", "INTEGER", 1, 1⟩, ⟨"b", "INTEGER", 1, 2⟩], []⟩]⟩
    ⟨"w", [⟨"a", "INTEGER", 1, 1⟩, ⟨"b", "INTEGER", 1, 2⟩], []⟩ "w" rfl
    (by simp [List.pairwise_cons])

/-- Spec-side description of one filter entry, in the claim's words: a null
value (or the literal string "NULL") yields `column IS NULL`; a string value
that starts or ends with `%` yields `column LIKE ?`; any other value yields
`column = ?`. -/
def specFilterClause (kv : String × Value) : String :=
  if kv.2 = Value.null ∨ kv.2 = Value.text "NULL" then kv.1 ++ " IS NULL"
  else
    match kv.2 with
    | .text s =>
      if strStartsWith s "%" || strEndsWith s "%" then kv.1 ++ " LIKE ?" else kv.1 ++ " = ?"
    | _ => kv.1 ++ " = ?"

/-- Spec-side bound parameters: the value of every entry that is not null (or
"NULL"), in iteration order. -/
def specBoundParams (filters : List (String × Value)) : List Value :=
  (filters.filter (fun kv => !(kv.2 == Value.null || kv.2 == Value.text "NULL"))).map
    (fun kv => kv.2)

/-- The clause the code builds agrees with the claim's description on every
entry. -/
theorem filterClause_eq_spec (kv : String × Value) :
    filterClause kv = specFilterClause kv := by
  obtain ⟨k, v⟩ := kv
  cases v with
  | null => simp [filterClause, specFilterClause, isNullish]
  | int i => simp [filterClause, specFilterClause, isNullish, isLikeValue]
  | text s =>
    by_cases hs : s = "NULL"
    · simp [filterClause, specFilterClause, isNullish, hs]
    · simp [filterClause, specFilterClause, isNullish, isLikeValue, hs]

/-- C4: for a non-empty filters mapping, the WHERE clause is built per entry
in iteration order exactly as the claim describes (IS NULL with no parameter
for nullish values, LIKE with the raw value bound for `%`-bounded strings,
`=` otherwise), joined with AND, and the bound parameters are the non-null
values in order. -/
theorem c4_filter_clause_matches_spec (filters : List (String × Value))
    (hne : filters ≠ []) :
    fetchWhereSql filters = " WHERE " ++ String.intercalate " AND " (filters.map specFilterClause)
    ∧ fetchParams filters = specBoundParams filters := by
  constructor
  · have hfe : filters.isEmpty = false := by
      cases filters with
      | nil => exact absurd rfl hne
      | cons x xs => rfl
    rw [fetchWhereSql, hfe, if_neg (by simp)]
    have : filterClause = specFilterClause := funext filterClause_eq_spec
    rw [this]
  · rfl

/-- Witness for C4 on a three-entry filter (null, `%`-wildcard string, plain
value). -/
theorem c4_filter_clause_witness :
    fetchWhereSql [("a", Value.null), ("b", Value.text "%x%"), ("c", Value.int 2)]
      = " WHERE " ++ String.intercalate " AND "
          ([("a", Value.null), ("b", Value.text "%x%"), ("c", Value.int 2)].map specFilterClause)
    ∧ fetchParams [("a", Value.null), ("b", Value.text "%x%"), ("c", Value.int 2)]
      = specBoundParams [("a", Value.null), ("b", Value.text "%x%"), ("c", Value.int 2)] :=
  c4_filter_clause_matches_spec [("a", Value.null), ("b", Value.text "%x%"), ("c", Value.int 2)]
    (by decide)

/-- Whenever `fetchTableData` returns a result, its `totalRows` is the count
of rows matching the filter clause, computed by the separate count statement
that carries no sort or limit. -/
theorem fetch_ok_totalRows (db : DbFile) (tableName : String) (opts : FetchOptions)
    (r : FetchResult) (hr : (fetchTableData (some db) tableName opts).2 = .ok r) :
    ∃ tbl, findTable db tableName = some tbl
      ∧ r.totalRows = (matchingRows tbl opts.filters).length := by
  cases hfind : findTable db tableName with
  | none =>
    unfold fetchTableData at hr
    simp only [connectToDb, hfind] at hr
    exact Except.noConfusion hr
  | some tbl =>
    refine ⟨tbl, rfl, ?_⟩
    unfold fetchTableData at hr
    simp only [connectToDb, hfind] at hr
    cases hcol : (opts.filters.map (fun kv => kv.1)).find? (fun c => !(colExists tbl c)) with
    | some c =>
      simp only [hcol] at hr
      exact Except.noConfusion hr
    | none =>
      simp only [hcol] at hr
      cases hss : fetchSortSpec opts with
      | some cd =>
        obtain ⟨c1, c2⟩ := cd
        simp only [hss] at hr
        by_cases hce : colExists tbl c1 = true
        · simp only [hce, if_true] at hr
          injection hr with h
          subst h
          rfl
        · simp only [hce, if_false, Bool.false_eq_true] at hr
          exact Except.noConfusion hr
      | none =>
        simp only [hss] at hr
        injection hr with h
        subst h
        rfl

/-- C5: `totalRows` equals the number of rows matching the filters and is
independent of the page/limit (and sort) options: two successful fetches with
the same filters report the same total. -/
theorem c5_total_rows_independent (db : DbFile) (tableName : String)
    (opts opts' : FetchOptions) (r r' : FetchResult)
    (hfilters : opts'.filters = opts.filters)
    (hr : (fetchTableData (some db) tableName opts).2 = .ok r)
    (hr' : (fetchTableData (some db) tableName opts').2 = .ok r') :
    (∃ tbl, findTable db tableName = some tbl
        ∧ r.totalRows = (matchingRows tbl opts.filters).length)
    ∧ r'.totalRows = r.totalRows := by
  obtain ⟨tbl, hfind, hA⟩ := fetch_ok_totalRows db tableName opts r hr
  obtain ⟨tbl', hfind', hB⟩ := fetch_ok_totalRows db tableName opts' r' hr'
  rw [hfind] at hfind'
  injection hfind' with he
  subst he
  exact ⟨⟨tbl, hfind, hA⟩, by rw [hB, hfilters, hA]⟩

/-- The 4-row example table for the C5 witness: three rows match
`status = 'active'`. -/
def c5Table : Table :=
  ⟨"t", [⟨"id", "INTEGER", 0, 1⟩, ⟨"status", "TEXT", 0, 0⟩],
    [[("id", Value.int 1), ("status", Value.text "active")],
     [("id", Value.int 2), ("status", Value.text "idle")],
     [("id", Value.int 3), ("status", Value.text "active")],
     [("id", Value.int 4), ("status", Value.text "active")]]⟩

/-- Page 1 with limit 2. -/
def c5OptsA : FetchOptions :=
  { page := some 1, limit := some 2, filters := [("status", Value.text "active")] }

/-- Page 2 with limit 100. -/
def c5OptsB : FetchOptions :=
  { page := some 2, limit := some 100, filters := [("status", Value.text "active")] }

/-- Witness for C5: limit 2 returns two rows and limit 100 on page 2 returns
none, yet both report `totalRows = 3`. -/
theorem c5_total_rows_witness :
    (∃ tbl, findTable ⟨[c5Table]⟩ "t" = some tbl
        ∧ (FetchResult.mk
            [[("id", Value.int 1), ("status", Value.text "active")],
             [("id", Value.int 3), ("status", Value.text "active")]] 3).totalRows
          = (matchingRows tbl c5OptsA.filters).length)
    ∧ (FetchResult.mk [] 3).totalRows
      = (FetchResult.mk
          [[("id", Value.int 1), ("status", Value.text "active")],
           [("id", Value.int 3), ("status", Value.text "active")]] 3).totalRows :=
  c5_total_rows_independent ⟨[c5Table]⟩ "t" c5OptsA c5OptsB
    ⟨[[("id", Value.int 1), ("status", Value.text "active")],
      [("id", Value.int 3), ("status", Value.text "active")]], 3⟩
    ⟨[], 3⟩ rfl rfl rfl

/-- C6: an insert whose values mapping is empty is rejected by the POST
handler's empty-payload check (`Request body cannot be empty.`) before
`insertRow` is ever called: no SQL statement is issued. -/
theorem c6_empty_insert_rejected (db : DbFile) (rawDbName rawTableName : String)
    (hdb : hasSlash rawDbName = false) (ht : sanitizeName rawTableName = rawTableName) :
    dataPOST (some db) rawDbName rawTableName (some []) = ([], .emptyBody) := by
  unfold dataPOST
  rw [hdb]
  simp [ht]

/-- Witness for C6 at a concrete database and table. -/
theorem c6_empty_insert_witness :
    dataPOST (some ⟨[⟨"t", [⟨"id", "INTEGER", 0, 1⟩], []⟩]⟩) "d.db" "t" (some [])
      = ([], .emptyBody) :=
  c6_empty_insert_rejected ⟨[⟨"t", [⟨"id", "INTEGER", 0, 1⟩], []⟩]⟩ "d.db" "t" rfl rfl

/-- C9 (amended): insert, update and delete return structured
`{success:false, error}` results for statement-level failures such as a
missing table, but every db.ts operation opens its connection outside any
catch, so a missing database file throws out of the layer; list tables, get
schema and fetch page have no catch at all, so fetch page also throws on a
missing table.  The HTTP routes above the layer catch these exceptions. -/
theorem c9_throws_vs_structured :
    (∀ tableName opts, fetchTableData none tableName opts = ([], .error .fileNotFound))
    ∧ (∀ tableName data, insertRow none tableName data = ([], .error .fileNotFound))
    ∧ (∀ tableName rowId idColumn data,
        updateRow none tableName rowId idColumn data = ([], .error .fileNotFound)
        ∧ deleteRow none tableName rowId idColumn = ([], .error .fileNotFound))
    ∧ (∀ tableName, getTableSchema none tableName = .error .fileNotFound)
    ∧ (∀ db tableName data, findTable db tableName = none → data ≠ [] →
        insertRow (some db) tableName data
          = ([], .ok ({ success := false, error := some ("no such table: " ++ tableName) }, db)))
    ∧ (∀ db tableName opts, findTable db tableName = none →
        fetchTableData (some db) tableName opts = ([], .error (.noSuchTable tableName))) := by
  refine ⟨fun _ _ => rfl, fun _ _ => rfl, fun _ _ _ _ => ⟨rfl, rfl⟩, fun _ => rfl, ?_, ?_⟩
  · intro db tableName data hfind hne
    unfold insertRow
    cases data with
    | nil => exact absurd rfl hne
    | cons kv kvs => simp [connectToDb, hfind, DbError.message]
  · intro db tableName opts hfind
    unfold fetchTableData
    simp [connectToDb, hfind]

/-- Witness for C9's amended statement: inserting into a missing table of an
existing (empty) database returns a structured failure rather than throwing. -/
theorem c9_throws_vs_structured_witness :
    insertRow (some ⟨[]⟩) "t" [("a", Value.int 1)]
      = ([], .ok ({ success := false, error := some ("no such table: " ++ "t") }, ⟨[]⟩)) :=
  c9_throws_vs_structured.2.2.2.2.1 ⟨[]⟩ "t" [("a", Value.int 1)] rfl (by decide)

/-- Membership in an upserted map: the entry was already there, or it carries
the upserted key. -/
theorem mem_upsert (l : List (String × Value)) (k : String) (v : Value)
    (kv : String × Value) (h : kv ∈ upsert l k v) : kv ∈ l ∨ kv.1 = k := by
  unfold upsert at h
  by_cases hany : l.any (fun kv => kv.1 == k) = true
  · rw [if_pos hany] at h
    rcases List.mem_map.mp h with ⟨kv0, hkv0, heq⟩
    by_cases h0 : kv0.1 == k
    · rw [if_pos h0] at heq
      right
      rw [← heq]
    · rw [if_neg h0] at heq
      left
      rwa [← heq]
  · rw [if_neg hany] at h
    rcases List.mem_append.mp h with h' | h'
    · exact Or.inl h'
    · right
      rw [List.mem_singleton.mp h']

/-- Keys already present survive an upsert. -/
theorem upsert_keys_mono (l : List (String × Value)) (k : String) (v : Value)
    (a : String) (h : a ∈ l.map (fun kv => kv.1)) :
    a ∈ (upsert l k v).map (fun kv => kv.1) := by
  unfold upsert
  by_cases hany : l.any (fun kv => kv.1 == k) = true
  · rw [if_pos hany]
    rcases List.mem_map.mp h with ⟨kv0, hkv0, heq⟩
    apply List.mem_map.mpr
    refine ⟨if kv0.1 == k then (k, v) else kv0, List.mem_map_of_mem _ hkv0, ?_⟩
    by_cases h0 : kv0.1 == k
    · rw [if_pos h0]
      rw [← heq]
      exact (eq_of_beq h0).symm
    · rw [if_neg h0]
      exact heq
  · rw [if_neg hany]
    rw [List.map_append]
    exact List.mem_append_left _ h

/-- The upserted key is present afterwards. -/
theorem upsert_keys_self (l : List (String × Value)) (k : String) (v : Value) :
    k ∈ (upsert l k v).map (fun kv => kv.1) := by
  unfold upsert
  by_cases hany : l.any (fun kv => kv.1 == k) = true
  · rw [if_pos hany]
    rcases List.any_eq_true.mp hany with ⟨kv0, hkv0, h0⟩
    apply List.mem_map.mpr
    refine ⟨if kv0.1 == k then (k, v) else kv0, List.mem_map_of_mem _ hkv0, ?_⟩
    rw [if_pos h0]
  · rw [if_neg hany, List.map_append]
    exact List.mem_append_right _ (by simp)

/-- Stripping to the safe character set is idempotent. -/
theorem sanitizeName_idem (s : String) :
    sanitizeName (sanitizeName s) = sanitizeName s := by
  unfold sanitizeName
  show String.mk (List.filter _ (String.toList (String.mk _))) = _
  simp [String.toList, List.filter_filter]

/-- Every key accumulated by the GET handler's filter loop is
sanitization-fixed, provided the accumulator's keys already are. -/
theorem foldl_filter_keys_sanitized (ps : List (String × String)) :
    ∀ acc : List (String × Value), (∀ kv ∈ acc, sanitizeName kv.1 = kv.1) →
      ∀ kv ∈ ps.foldl (fun acc kv =>
          if strStartsWith kv.1 "filter_" then
            upsert acc (sanitizeName (kv.1.drop 7)) (Value.text kv.2)
          else acc) acc,
        sanitizeName kv.1 = kv.1 := by
  induction ps with
  | nil => exact fun acc hacc kv hkv => hacc kv hkv
  | cons p ps ih =>
    intro acc hacc kv hkv
    simp only [List.foldl_cons] at hkv
    refine ih _ ?_ kv hkv
    intro kv' hkv'
    by_cases hp : strStartsWith p.1 "filter_" = true
    · rw [if_pos hp] at hkv'
      rcases mem_upsert _ _ _ kv' hkv' with h' | h'
      · exact hacc kv' h'
      · rw [h']
        exact sanitizeName_idem _
    · rw [if_neg hp] at hkv'
      exact hacc kv' hkv'

/-- The classification of a filter value that determines its clause shape. -/
inductive ValueTag where
  | nullish
  | likeStr
  | plain
  deriving DecidableEq

/-- Classify a filter value. -/
def valueTag (v : Value) : ValueTag :=
  if isNullish v then .nullish else if isLikeValue v then .likeStr else .plain

/-- The clause text determined by a key and a value tag alone. -/
def tagClause (kt : String × ValueTag) : String :=
  match kt.2 with
  | .nullish => kt.1 ++ " IS NULL"
  | .likeStr => kt.1 ++ " LIKE ?"
  | .plain => kt.1 ++ " = ?"

/-- The WHERE suffix determined by keys and value tags alone. -/
def whereSqlOfTags (l : List (String × ValueTag)) : String :=
  if l.isEmpty then ""
  else " WHERE " ++ String.intercalate " AND " (l.map tagClause)

/-- Each built clause depends on the value only through its tag. -/
theorem filterClause_eq_tagClause (kv : String × Value) :
    filterClause kv = tagClause (kv.1, valueTag kv.2) := by
  unfold filterClause tagClause valueTag
  by_cases h1 : isNullish kv.2 = true
  · simp [h1]
  · by_cases h2 : isLikeValue kv.2 = true
    · simp [h1, h2]
    · simp [h1, h2]

/-- The whole WHERE text depends on the values only through their tags: no
value is ever interpolated into the SQL string. -/
theorem where_sql_depends_only_on_tags (filters : List (String × Value)) :
    fetchWhereSql filters
      = whereSqlOfTags (filters.map (fun kv => (kv.1, valueTag kv.2))) := by
  have hmap : (filters.map (fun kv => (kv.1, valueTag kv.2))).map tagClause
      = filters.map filterClause := by
    rw [List.map_map]
    exact congrArg (fun f => filters.map f)
      (funext fun kv => (filterClause_eq_tagClause kv).symm)
  cases filters with
  | nil => rfl
  | cons kv l =>
    unfold fetchWhereSql whereSqlOfTags
    rw [hmap]
    rfl

/-- C2 (amended): table names failing the `[A-Za-z0-9_]` check are rejected
before any SQL; database names are validated only against path separators
(`path.basename(raw) !== raw`), not against the safe character set, so a
database name such as `a;b.db` passes name validation and the operation
proceeds to SQL; filter keys are silently stripped to the safe character set
(warn-and-continue) and the operation proceeds with the sanitized key; values
never reach the SQL text — the WHERE clause is a function of the keys and
value classifications alone, and the non-null values are passed as bound
parameters. -/
theorem c2_identifier_handling_amended :
    (∀ (db? : Option DbFile) (rawDbName rawTableName : String)
        (ps : List (String × String)),
      hasSlash rawDbName = true →
      dataGET db? rawDbName rawTableName ps = ([], .invalidDbName))
    ∧ (∀ (db? : Option DbFile) (rawDbName rawTableName : String)
        (ps : List (String × String)),
      hasSlash rawDbName = false → sanitizeName rawTableName ≠ rawTableName →
      dataGET db? rawDbName rawTableName ps = ([], .invalidTableName))
    ∧ (dataGET (some ⟨[⟨"t", [⟨"id", "INTEGER", 0, 1⟩], [[("id", Value.int 7)]]⟩]⟩)
        "a;b.db" "t" []).2
      = .ok [[("id", Value.int 7)]] 1 1 1 10
    ∧ (∀ ps : List (String × String), ∀ kv ∈ collectFilters ps, sanitizeName kv.1 = kv.1)
    ∧ (∀ filters : List (String × Value),
        fetchWhereSql filters = whereSqlOfTags (filters.map (fun kv => (kv.1, valueTag kv.2)))
        ∧ fetchParams filters
          = (filters.filter (fun kv => !(isNullish kv.2))).map (fun kv => kv.2)) := by
  refine ⟨?_, ?_, ?_, ?_, ?_⟩
  · intro db? rawDbName rawTableName ps hdb
    unfold dataGET
    rw [hdb]
    rfl
  · intro db? rawDbName rawTableName ps hdb ht
    unfold dataGET
    rw [hdb]
    simp [ht]
  · decide
  · intro ps kv hkv
    exact foldl_filter_keys_sanitized ps [] (by simp) kv hkv
  · exact fun filters => ⟨where_sql_depends_only_on_tags filters, rfl⟩

/-- Witness for C2's amended statement: a database name containing `/` is
rejected, and a table name containing `;` is rejected, both up front. -/
theorem c2_identifier_handling_witness :
    dataGET none "a/b" "t" [] = ([], .invalidDbName)
    ∧ dataGET none "d" "t;x" [] = ([], .invalidTableName) :=
  ⟨c2_identifier_handling_amended.1 none "a/b" "t" [] rfl,
   c2_identifier_handling_amended.2.1 none "d" "t;x" [] rfl (by decide)⟩

/-- C3 (amended): only the server action `getTableInfoAndDataAction` rejects
a sort column absent from the schema with a validation error before executing
any count or data statement; `fetchTableData` itself performs no schema check
— it strips unsafe characters from `sortBy`, always executes the count first,
and an absent (sanitized) sort column then surfaces as an engine
`no such column` error at the data statement, after the count already ran. -/
theorem c3_sort_validation_amended :
    (∀ (db : DbFile) (tbl : Table) (tableName : String) (page pageSize : Nat)
        (sb : String) (sortDirection : Option String),
      findTable db tableName = some tbl → tbl.cols ≠ [] →
      tbl.cols.any (fun c => c.name == sb) = false →
      getTableInfoAndDataAction (some db) tableName page pageSize (some sb) sortDirection
        = ([], .failure ("Invalid sort column: " ++ sb)))
    ∧ (∀ (db : DbFile) (tbl : Table) (tableName : String) (opts : FetchOptions) (sb : String),
      findTable db tableName = some tbl →
      opts.sortBy = some sb →
      (opts.filters.map (fun kv => kv.1)).find? (fun c => !(colExists tbl c)) = none →
      sanitizeName sb ≠ "" →
      colExists tbl (sanitizeName sb) = false →
      fetchTableData (some db) tableName opts
        = ([⟨"SELECT COUNT(*) as count FROM " ++ tableName ++ fetchWhereSql opts.filters,
            fetchParams opts.filters⟩],
           .error (.noSuchColumn (sanitizeName sb)))) := by
  constructor
  · intro db tbl tableName page pageSize sb sortDirection hfind hcne hany
    have hie : tbl.cols.isEmpty = false := by
      cases hc : tbl.cols with
      | nil => exact absurd hc hcne
      | cons a l => rfl
    unfold getTableInfoAndDataAction
    simp [hfind, hie, hany]
  · intro db tbl tableName opts sb hfind hsb hcol hne hnex
    have hss : fetchSortSpec opts
        = some (sanitizeName sb,
            match opts.sortOrder with
            | some o => strUpper o == "DESC"
            | none => false) := by
      unfold fetchSortSpec
      rw [hsb]
      simp [hne]
    unfold fetchTableData
    simp [connectToDb, hfind, hcol, hss, hnex]

/-- Witness for C3's amended statement on a one-column table and the absent
sort column `qqq`. -/
theorem c3_sort_validation_witness :
    getTableInfoAndDataAction (some ⟨[⟨"w", [⟨"id", "INTEGER", 0, 1⟩], []⟩]⟩) "w"
        1 10 (some "qqq") none
      = ([], .failure ("Invalid sort column: " ++ "qqq"))
    ∧ fetchTableData (some ⟨[⟨"w", [⟨"id", "INTEGER", 0, 1⟩], []⟩]⟩) "w"
        { sortBy := some "qqq" }
      = ([⟨"SELECT COUNT(*) as count FROM " ++ "w" ++ fetchWhereSql [], fetchParams []⟩],
         .error (.noSuchColumn (sanitizeName "qqq"))) :=
  ⟨c3_sort_validation_amended.1 ⟨[⟨"w", [⟨"id", "INTEGER", 0, 1⟩], []⟩]⟩
      ⟨"w", [⟨"id", "INTEGER", 0, 1⟩], []⟩ "w" 1 10 "qqq" none rfl (by decide) (by decide),
   c3_sort_validation_amended.2 ⟨[⟨"w", [⟨"id", "INTEGER", 0, 1⟩], []⟩]⟩
      ⟨"w", [⟨"id", "INTEGER", 0, 1⟩], []⟩ "w" { sortBy := some "qqq" } "qqq"
      rfl rfl rfl (by decide) (by decide)⟩

/-- A successful `updateRow` run: the single executed statement and the
reported change count, spelled out. -/
theorem updateRow_ok (db : DbFile) (tbl : Table) (tableName : String) (rowId : Value)
    (idColumn : String) (data : List (String × Value))
    (hne : data ≠ []) (hfind : findTable db tableName = some tbl)
    (hcols : ((data.map (fun kv => kv.1)) ++ [idColumn]).find?
        (fun c => !(colExists tbl c)) = none) :
    updateRow (some db) tableName rowId idColumn data
      = ([⟨updateSql tableName (data.map (fun kv => kv.1)) idColumn,
           data.map (fun kv => kv.2) ++ [rowId]⟩],
         .ok ({ success := true,
                changes := some ((tbl.rows.filter
                  (fun r => whereMatches r idColumn rowId)).length) },
              ⟨db.tables.map (fun x =>
                if x.name == tableName then
                  { x with rows := x.rows.map (fun r =>
                      if whereMatches r idColumn rowId then applySet data r else r) }
                else x)⟩)) := by
  unfold updateRow
  cases data with
  | nil => exact absurd rfl hne
  | cons kv kvs =>
    simp only [List.map_cons, List.cons_append] at hcols
    simp [connectToDb, hfind, hcols]

/-- A `deleteRow` run against an existing table and id column: the single
executed statement and the reported change count. -/
theorem deleteRow_ok (db : DbFile) (tbl : Table) (tableName : String) (rowId : Value)
    (idColumn : String)
    (hfind : findTable db tableName = some tbl) (hid : colExists tbl idColumn = true) :
    deleteRow (some db) tableName rowId idColumn
      = ([⟨"DELETE FROM " ++ tableName ++ " WHERE " ++ idColumn ++ " = ?", [rowId]⟩],
         .ok ({ success := true,
                changes := some ((tbl.rows.filter
                  (fun r => whereMatches r idColumn rowId)).length) },
              ⟨db.tables.map (fun x =>
                if x.name == tableName then
                  { x with rows := x.rows.filter (fun r => !(whereMatches r idColumn rowId)) }
                else x)⟩)) := by
  unfold deleteRow
  simp [connectToDb, hfind, hid]

/-- Pointwise-identity maps change nothing. -/
theorem map_eq_self_of_forall {α : Type} (l : List α) (f : α → α)
    (h : ∀ x ∈ l, f x = x) : l.map f = l := by
  induction l with
  | nil => rfl
  | cons a t ih => simp [h a (by simp), ih (fun x hx => h x (by simp [hx]))]

/-- Filters that keep every element change nothing. -/
theorem filter_eq_self_of_forall {α : Type} (l : List α) (p : α → Bool)
    (h : ∀ x ∈ l, p x = true) : l.filter p = l := by
  induction l with
  | nil => rfl
  | cons a t ih => simp [List.filter_cons, h a (by simp), ih (fun x hx => h x (by simp [hx]))]

/-- C8: an update-by-key or delete-by-key whose key value matches no row
returns `success := true` with `changes = 0` — zero affected rows is not an
error — and leaves the database exactly as it was. -/
theorem c8_zero_changes_not_error (db : DbFile) (tbl : Table) (tableName : String)
    (rowId : Value) (idColumn : String) (data : List (String × Value))
    (hfind : findTable db tableName = some tbl)
    (hne : data ≠ [])
    (hcols : ((data.map (fun kv => kv.1)) ++ [idColumn]).find?
        (fun c => !(colExists tbl c)) = none)
    (hzero : ∀ x ∈ db.tables, x.name = tableName →
        ∀ r ∈ x.rows, whereMatches r idColumn rowId = false) :
    updateRow (some db) tableName rowId idColumn data
      = ([⟨updateSql tableName (data.map (fun kv => kv.1)) idColumn,
           data.map (fun kv => kv.2) ++ [rowId]⟩],
         .ok ({ success := true, changes := some 0 }, db))
    ∧ deleteRow (some db) tableName rowId idColumn
      = ([⟨"DELETE FROM " ++ tableName ++ " WHERE " ++ idColumn ++ " = ?", [rowId]⟩],
         .ok ({ success := true, changes := some 0 }, db)) := by
  have hmem : tbl ∈ db.tables := List.mem_of_find?_eq_some hfind
  have hname : tbl.name = tableName := by
    have := List.find?_some hfind
    exact eq_of_beq this
  have hz : ∀ r ∈ tbl.rows, whereMatches r idColumn rowId = false :=
    hzero tbl hmem hname
  have hid : colExists tbl idColumn = true := by
    have h' := List.find?_eq_none.mp hcols idColumn (by simp)
    simpa using h'
  have hcount : (tbl.rows.filter (fun r => whereMatches r idColumn rowId)).length = 0 := by
    rw [List.length_eq_zero]
    refine List.eq_nil_iff_forall_not_mem.mpr (fun r hr => ?_)
    rcases List.mem_filter.mp hr with ⟨hmr, hpr⟩
    rw [hz r hmr] at hpr
    exact Bool.false_ne_true hpr
  have hupd_tables : db.tables.map (fun x =>
      if x.name == tableName then
        { x with rows := x.rows.map (fun r =>
            if whereMatches r idColumn rowId then applySet data r else r) }
      else x) = db.tables := by
    refine map_eq_self_of_forall _ _ (fun x hx => ?_)
    by_cases hxn : x.name == tableName
    · rw [if_pos hxn]
      have hrows : x.rows.map (fun r =>
          if whereMatches r idColumn rowId then applySet data r else r) = x.rows := by
        refine map_eq_self_of_forall _ _ (fun r hr => ?_)
        rw [hzero x hx (eq_of_beq hxn) r hr]
        simp
      rw [hrows]
    · rw [if_neg hxn]
  have hdel_tables : db.tables.map (fun x =>
      if x.name == tableName then
        { x with rows := x.rows.filter (fun r => !(whereMatches r idColumn rowId)) }
      else x) = db.tables := by
    refine map_eq_self_of_forall _ _ (fun x hx => ?_)
    by_cases hxn : x.name == tableName
    · rw [if_pos hxn]
      have hrows : x.rows.filter (fun r => !(whereMatches r idColumn rowId)) = x.rows := by
        refine filter_eq_self_of_forall _ _ (fun r hr => ?_)
        rw [hzero x hx (eq_of_beq hxn) r hr]
        rfl
      rw [hrows]
    · rw [if_neg hxn]
  constructor
  · rw [updateRow_ok db tbl tableName rowId idColumn data hne hfind hcols, hcount, hupd_tables]
  · rw [deleteRow_ok db tbl tableName rowId idColumn hfind hid, hcount, hdel_tables]

/-- Witness for C8: updating and deleting `id = 5` in a one-row table whose
only row has `id = 1` report zero changes, success, and an unchanged
database. -/
theorem c8_zero_changes_witness :
    updateRow (some ⟨[⟨"t", [⟨"id", "INTEGER", 0, 1⟩, ⟨"name", "TEXT", 0, 0⟩],
        [[("id", Value.int 1), ("name", Value.text "x")]]⟩]⟩) "t" (Value.int 5) "id"
        [("name", Value.text "z")]
      = ([⟨updateSql "t" ([("name", Value.text "z")].map (fun kv => kv.1)) "id",
           [("name", Value.text "z")].map (fun kv => kv.2) ++ [Value.int 5]⟩],
         .ok ({ success := true, changes := some 0 },
           ⟨[⟨"t", [⟨"id", "INTEGER", 0, 1⟩, ⟨"name", "TEXT", 0, 0⟩],
             [[("id", Value.int 1), ("name", Value.text "x")]]⟩]⟩))
    ∧ deleteRow (some ⟨[⟨"t", [⟨"id", "INTEGER", 0, 1⟩, ⟨"name", "TEXT", 0, 0⟩],
        [[("id", Value.int 1), ("name", Value.text "x")]]⟩]⟩) "t" (Value.int 5) "id"
      = ([⟨"DELETE FROM " ++ "t" ++ " WHERE " ++ "id" ++ " = ?", [Value.int 5]⟩],
         .ok ({ success := true, changes := some 0 },
           ⟨[⟨"t", [⟨"id", "INTEGER", 0, 1⟩, ⟨"name", "TEXT", 0, 0⟩],
             [[("id", Value.int 1), ("name", Value.text "x")]]⟩]⟩)) :=
  c8_zero_changes_not_error
    ⟨[⟨"t", [⟨"id", "INTEGER", 0, 1⟩, ⟨"name", "TEXT", 0, 0⟩],
      [[("id", Value.int 1), ("name", Value.text "x")]]⟩]⟩
    ⟨"t", [⟨"id", "INTEGER", 0, 1⟩, ⟨"name", "TEXT", 0, 0⟩],
      [[("id", Value.int 1), ("name", Value.text "x")]]⟩
    "t" (Value.int 5) "id" [("name", Value.text "z")] rfl (by decide) (by decide) (by decide)

/-- The PUT body loop never accumulates the primary-key column. -/
theorem foldl_put_excludes (idColumn : String) (body : List (String × Value)) :
    ∀ acc : List (String × Value), idColumn ∉ acc.map (fun kv => kv.1) →
      idColumn ∉ (body.foldl (fun acc kv =>
          if sanitizeName kv.1 == idColumn then acc
          else upsert acc (sanitizeName kv.1) kv.2) acc).map (fun kv => kv.1) := by
  induction body with
  | nil => exact fun acc hacc => hacc
  | cons p ps ih =>
    intro acc hacc
    simp only [List.foldl_cons]
    apply ih
    by_cases hp : (sanitizeName p.1 == idColumn) = true
    · rwa [if_pos hp]
    · rw [if_neg hp]
      intro hmem
      rcases List.mem_map.mp hmem with ⟨kv0, hkv0, heq⟩
      rcases mem_upsert _ _ _ kv0 hkv0 with h' | h'
      · exact hacc (List.mem_map.mpr ⟨kv0, h', heq⟩)
      · refine hp (beq_iff_eq.mpr ?_)
        rw [← h']
        exact heq

/-- Keys accumulated so far survive the rest of the PUT body loop. -/
theorem foldl_put_mono (idColumn : String) (body : List (String × Value)) :
    ∀ (acc : List (String × Value)) (a : String), a ∈ acc.map (fun kv => kv.1) →
      a ∈ (body.foldl (fun acc kv =>
          if sanitizeName kv.1 == idColumn then acc
          else upsert acc (sanitizeName kv.1) kv.2) acc).map (fun kv => kv.1) := by
  induction body with
  | nil => exact fun acc a h => h
  | cons p ps ih =>
    intro acc a ha
    simp only [List.foldl_cons]
    apply ih
    by_cases hp : (sanitizeName p.1 == idColumn) = true
    · rwa [if_pos hp]
    · rw [if_neg hp]
      exact upsert_keys_mono _ _ _ _ ha

/-- Every body entry whose sanitized key differs from the primary-key column
ends up in the sanitized body. -/
theorem foldl_put_covers (idColumn : String) (body : List (String × Value)) :
    ∀ acc : List (String × Value), ∀ kv ∈ body, sanitizeName kv.1 ≠ idColumn →
      sanitizeName kv.1 ∈ (body.foldl (fun acc kv =>
          if sanitizeName kv.1 == idColumn then acc
          else upsert acc (sanitizeName kv.1) kv.2) acc).map (fun kv => kv.1) := by
  induction body with
  | nil =>
    intro acc kv h
    exact absurd h (List.not_mem_nil kv)
  | cons p ps ih =>
    intro acc kv hkv hne
    simp only [List.foldl_cons]
    rcases List.mem_cons.mp hkv with h | h
    · subst h
      have hp : ¬ (sanitizeName kv.1 == idColumn) = true := by simpa using hne
      rw [if_neg hp]
      exact foldl_put_mono idColumn ps _ _ (upsert_keys_self _ _ _)
    · exact ih _ kv h hne

/-- The database and table of the C7 witness: `id` is the single primary-key
column. -/
def c7Table : Table :=
  ⟨"t", [⟨"id", "INTEGER", 0, 1⟩, ⟨"name", "TEXT", 0, 0⟩],
    [[("id", Value.int 1), ("name", Value.text "x")]]⟩

/-- C7: when the new-values mapping of an update-by-key contains the
primary-key column, the PUT handler silently drops it: the primary-key column
never appears among the sanitized SET keys, every other supplied column does,
and the single UPDATE statement the request executes is built from the
sanitized keys with the key column only in the WHERE clause. -/
theorem c7_update_drops_pk (db : DbFile) (tbl : Table)
    (rawDbName tableName rawRowId idColumn : String) (body : List (String × Value))
    (hdb : hasSlash rawDbName = false)
    (ht : sanitizeName tableName = tableName)
    (hrid : sanitizeRowId rawRowId = rawRowId)
    (hpk : getPrimaryKeyColumn (some db) tableName = .ok (some idColumn))
    (hfind : findTable db tableName = some tbl)
    (hbody : body ≠ [])
    (hsb : putSanitizedBody idColumn body ≠ [])
    (hcols : ((putSanitizedBody idColumn body).map (fun kv => kv.1) ++ [idColumn]).find?
        (fun c => !(colExists tbl c)) = none) :
    idColumn ∉ (putSanitizedBody idColumn body).map (fun kv => kv.1)
    ∧ (∀ kv ∈ body, sanitizeName kv.1 ≠ idColumn →
        sanitizeName kv.1 ∈ (putSanitizedBody idColumn body).map (fun kv => kv.1))
    ∧ (dataPUT (some db) rawDbName tableName rawRowId (some body)).1
      = [⟨updateSql tableName ((putSanitizedBody idColumn body).map (fun kv => kv.1)) idColumn,
          (putSanitizedBody idColumn body).map (fun kv => kv.2) ++ [Value.text rawRowId]⟩] := by
  refine ⟨foldl_put_excludes idColumn body [] (by simp),
    fun kv hkv h => foldl_put_covers idColumn body [] kv hkv h, ?_⟩
  have hupd := updateRow_ok db tbl tableName (Value.text rawRowId) idColumn
    (putSanitizedBody idColumn body) hsb hfind hcols
  have hbodyb : body.isEmpty = false := by
    cases body with
    | nil => exact absurd rfl hbody
    | cons a l => rfl
  have hsbb : (putSanitizedBody idColumn body).isEmpty = false := by
    cases h : putSanitizedBody idColumn body with
    | nil => exact absurd h hsb
    | cons a l => rfl
  unfold dataPUT
  rw [hdb]
  simp [ht, hrid, hpk, hbodyb, hsbb, hupd]
  split <;> rfl

/-- Witness for C7: a PUT body containing the primary-key column `id` plus
`name`; only `name` reaches the SET list and the executed UPDATE statement. -/
theorem c7_update_drops_pk_witness :
    "id" ∉ (putSanitizedBody "id"
        [("id", Value.int 9), ("name", Value.text "y")]).map (fun kv => kv.1)
    ∧ (∀ kv ∈ [("id", Value.int 9), ("name", Value.text "y")], sanitizeName kv.1 ≠ "id" →
        sanitizeName kv.1 ∈ (putSanitizedBody "id"
          [("id", Value.int 9), ("name", Value.text "y")]).map (fun kv => kv.1))
    ∧ (dataPUT (some ⟨[c7Table]⟩) "d.db" "t" "1"
        (some [("id", Value.int 9), ("name", Value.text "y")])).1
      = [⟨updateSql "t" ((putSanitizedBody "id"
            [("id", Value.int 9), ("name", Value.text "y")]).map (fun kv => kv.1)) "id",
          (putSanitizedBody "id"
            [("id", Value.int 9), ("name", Value.text "y")]).map (fun kv => kv.2)
            ++ [Value.text "1"]⟩] :=
  c7_update_drops_pk ⟨[c7Table]⟩ c7Table "d.db" "t" "1" "id"
    [("id", Value.int 9), ("name", Value.text "y")]
    rfl rfl rfl rfl rfl (by decide) (by decide) (by decide)

end DbMan
